import Mathlib

/-!
Verification of the ML-AST exoplanet platform backend decision core and
light-curve retrieval pipeline, shallowly embedded from the repository
sources (the two-stage `/predict` logic documented in the technical
documentation, the `data-explorer` and `live-prediction` React components,
and the spec for the backend pieces whose implementation file is not in
the source tree).  Probabilities and feature values are rationals; the
trained random-forest classifier is abstracted as a function parameter.
-/

namespace MLAST

/-! ## DecisionEngine: two-stage masked inference (`POST /predict`) -/

inductive Stage1Verdict where
  | PASS
  | FAIL
deriving DecidableEq

inductive Stage2Verdict where
  | EXOPLANET
  | UNCERTAIN
  | FALSE_POSITIVE
deriving DecidableEq

structure Stage1Result where
  result : Stage1Verdict
  signal_quality : String
  confidence : ℚ
  explanation : String
deriving DecidableEq

structure Stage2Result where
  result : Stage2Verdict
  label : String
  confidence : ℚ
  explanation : String
deriving DecidableEq

structure PredictionResponse where
  stage_1 : Stage1Result
  stage_2 : Option Stage2Result
  prediction : String
  label : String
  confidence : ℚ
deriving DecidableEq

/-- The classifier handle together with its feature metadata:
`featureColumns` embeds `FEATURE_COLUMNS`, `medians` embeds
`FEATURE_MEDIANS`, and `predictProba` abstracts
`model.predict_proba(row)[0]` returning `(pNegative, pPositive)`. -/
structure Model where
  featureColumns : List String
  medians : String → ℚ
  predictProba : List (String × ℚ) → ℚ × ℚ

/-- Embeds `col.startswith("koi_fpflag_")`. -/
def isFpflagCol (col : String) : Bool :=
  "koi_fpflag_".data.isPrefixOf col.data

/-- Stage-1 inference vector: fpflag columns take the user value
(falling back to the stored median when absent) and every physical
column is forced to its training median. -/
def stage1Vector (m : Model) (input : List (String × ℚ)) : List (String × ℚ) :=
  m.featureColumns.map fun col =>
    if isFpflagCol col then (col, (input.lookup col).getD (m.medians col))
    else (col, m.medians col)

/-- Stage-2 inference vector: fpflag columns are forced to 0 and every
physical column takes the user value, falling back to the median. -/
def stage2Vector (m : Model) (input : List (String × ℚ)) : List (String × ℚ) :=
  m.featureColumns.map fun col =>
    if isFpflagCol col then (col, 0)
    else (col, (input.lookup col).getD (m.medians col))

/-- Stage-1 rejection threshold on the negative-class probability. -/
def stage1FailThreshold : ℚ := 6 / 10

/-- Stage-2 exoplanet threshold on the positive-class probability. -/
def exoplanetThreshold : ℚ := 7 / 10

/-- Stage-2 lower bound of the uncertain band. -/
def uncertainThreshold : ℚ := 4 / 10

/-- Stage-2 three-way classification of the positive-class probability. -/
def classifyStage2 (pPos : ℚ) : Stage2Result :=
  if exoplanetThreshold ≤ pPos then
    { result := Stage2Verdict.EXOPLANET
      label := "Exoplanet Candidate"
      confidence := pPos
      explanation := "Random Forest assigns high exoplanet probability" }
  else if uncertainThreshold ≤ pPos then
    { result := Stage2Verdict.UNCERTAIN
      label := "Uncertain (Needs Review)"
      confidence := pPos
      explanation := "Mixed physical plausibility signals" }
  else
    { result := Stage2Verdict.FALSE_POSITIVE
      label := "False Positive"
      confidence := pPos
      explanation := "Physical parameters inconsistent with a planet" }

/-- String form of the stage-2 verdict used as the final prediction field. -/
def stage2VerdictName : Stage2Verdict → String
  | Stage2Verdict.EXOPLANET => "EXOPLANET"
  | Stage2Verdict.UNCERTAIN => "UNCERTAIN"
  | Stage2Verdict.FALSE_POSITIVE => "FALSE_POSITIVE"

/-- The two-stage `/predict` pipeline: stage 1 screens signal quality on
the flags-only masked vector and rejects when the negative-class
probability reaches the 0.60 threshold (stage 2 is then skipped and the
final verdict is FALSE_POSITIVE at the stage-1 confidence); otherwise
stage 2 classifies the physical masked vector by the 0.70 and 0.40
thresholds and the final fields mirror stage 2. -/
def classify (m : Model) (input : List (String × ℚ)) : PredictionResponse :=
  let pFP := (m.predictProba (stage1Vector m input)).1
  if stage1FailThreshold ≤ pFP then
    { stage_1 :=
        { result := Stage1Verdict.FAIL
          signal_quality := "Poor Signal Quality"
          confidence := pFP
          explanation := "Signal shows false positive characteristics" }
      stage_2 := none
      prediction := "FALSE_POSITIVE"
      label := "False Positive (Bad Signal)"
      confidence := pFP }
  else
    let pPos := (m.predictProba (stage2Vector m input)).2
    let s2 := classifyStage2 pPos
    { stage_1 :=
        { result := Stage1Verdict.PASS
          signal_quality := "Clean Signal"
          confidence := pFP
          explanation := "Signal passed quality screening" }
      stage_2 := some s2
      prediction := stage2VerdictName s2.result
      label := s2.label
      confidence := s2.confidence }

/-- A small concrete feature-column list used for witness instances. -/
def demoColumns : List String :=
  ["koi_fpflag_ss", "koi_fpflag_nt", "koi_fpflag_co", "koi_fpflag_ec",
   "koi_period", "koi_prad"]

/-- A classifier handle returning constant probabilities, used to
instantiate the abstract model in witness instances. -/
def constModel (pNeg pPos : ℚ) : Model :=
  { featureColumns := demoColumns
    medians := fun _ => 1
    predictProba := fun _ => (pNeg, pPos) }

/-- C1: stage 1 rejects, with confidence pFP and stage 2 never run, iff
the stage-1 negative-class probability pFP reaches the 0.60 threshold
(boundary inclusive); strictly below it, stage 1 passes with confidence
pFP. -/
theorem stage1_boundary (m : Model) (input : List (String × ℚ)) :
    (stage1FailThreshold ≤ (m.predictProba (stage1Vector m input)).1 →
      (classify m input).stage_1.result = Stage1Verdict.FAIL ∧
      (classify m input).stage_1.confidence =
        (m.predictProba (stage1Vector m input)).1 ∧
      (classify m input).stage_2 = none) ∧
    ((m.predictProba (stage1Vector m input)).1 < stage1FailThreshold →
      (classify m input).stage_1.result = Stage1Verdict.PASS ∧
      (classify m input).stage_1.confidence =
        (m.predictProba (stage1Vector m input)).1 ∧
      (classify m input).stage_2 ≠ none) := by
  constructor
  · intro h
    simp [classify, h]
  · intro h
    simp [classify, not_le.mpr h]

/-- Witness for C1 at the documented boundary probabilities: a
classifier putting pFP exactly at 0.60 is rejected, and one at 0.599999
passes. -/
theorem stage1_boundary_witness :
    ((classify (constModel (6 / 10) 0) []).stage_1.result = Stage1Verdict.FAIL ∧
      (classify (constModel (6 / 10) 0) []).stage_2 = none) ∧
    (classify (constModel (599999 / 1000000) 0) []).stage_1.result =
      Stage1Verdict.PASS := by
  refine ⟨⟨?_, ?_⟩, ?_⟩
  · exact ((stage1_boundary (constModel (6 / 10) 0) []).1 (by norm_num [constModel, stage1FailThreshold])).1
  · exact ((stage1_boundary (constModel (6 / 10) 0) []).1 (by norm_num [constModel, stage1FailThreshold])).2.2
  · exact ((stage1_boundary (constModel (599999 / 1000000) 0) []).2 (by norm_num [constModel, stage1FailThreshold])).1

/-- C2: for every feature map that passes stage 1, the stage-2 verdict
is the total three-way classification of the positive-class probability
pPos: at least 0.70 gives EXOPLANET, at least 0.40 but below 0.70 gives
UNCERTAIN, below 0.40 gives FALSE_POSITIVE, with stage-2 confidence
pPos. -/
theorem stage2_three_way (m : Model) (input : List (String × ℚ))
    (hpass : (m.predictProba (stage1Vector m input)).1 < stage1FailThreshold) :
    ∃ s2, (classify m input).stage_2 = some s2 ∧
      s2.confidence = (m.predictProba (stage2Vector m input)).2 ∧
      (exoplanetThreshold ≤ (m.predictProba (stage2Vector m input)).2 →
        s2.result = Stage2Verdict.EXOPLANET) ∧
      (uncertainThreshold ≤ (m.predictProba (stage2Vector m input)).2 →
        (m.predictProba (stage2Vector m input)).2 < exoplanetThreshold →
        s2.result = Stage2Verdict.UNCERTAIN) ∧
      ((m.predictProba (stage2Vector m input)).2 < uncertainThreshold →
        s2.result = Stage2Verdict.FALSE_POSITIVE) := by
  refine ⟨classifyStage2 ((m.predictProba (stage2Vector m input)).2), ?_, ?_, ?_, ?_, ?_⟩
  · simp [classify, not_le.mpr hpass]
  · unfold classifyStage2
    split <;> try rfl
    split <;> rfl
  · intro h
    simp [classifyStage2, h]
  · intro h1 h2
    simp [classifyStage2, not_le.mpr h2, h1]
  · intro h
    have h2 : ¬ exoplanetThreshold ≤ (m.predictProba (stage2Vector m input)).2 := by
      intro hc
      exact absurd (lt_of_le_of_lt hc h) (by norm_num [exoplanetThreshold, uncertainThreshold])
    simp [classifyStage2, h2, not_le.mpr h]

/-- Witness for C2 at the documented boundary probabilities: pPos equal
to 0.70 is EXOPLANET, 0.40 and 0.699999 are UNCERTAIN, 0.399999 is
FALSE_POSITIVE. -/
theorem stage2_three_way_witness :
    (classify (constModel 0 (7 / 10)) []).stage_2.map Stage2Result.result =
      some Stage2Verdict.EXOPLANET ∧
    (classify (constModel 0 (4 / 10)) []).stage_2.map Stage2Result.result =
      some Stage2Verdict.UNCERTAIN ∧
    (classify (constModel 0 (699999 / 1000000)) []).stage_2.map Stage2Result.result =
      some Stage2Verdict.UNCERTAIN ∧
    (classify (constModel 0 (399999 / 1000000)) []).stage_2.map Stage2Result.result =
      some Stage2Verdict.FALSE_POSITIVE := by
  refine ⟨?_, ?_, ?_, ?_⟩
  · obtain ⟨s2, hs2, -, hexo, -, -⟩ :=
      stage2_three_way (constModel 0 (7 / 10)) []
        (by norm_num [constModel, stage1FailThreshold])
    rw [hs2]
    simp [hexo (by norm_num [constModel, exoplanetThreshold])]
  · obtain ⟨s2, hs2, -, -, hunc, -⟩ :=
      stage2_three_way (constModel 0 (4 / 10)) []
        (by norm_num [constModel, stage1FailThreshold])
    rw [hs2]
    simp [hunc (by norm_num [constModel, uncertainThreshold])
        (by norm_num [constModel, exoplanetThreshold])]
  · obtain ⟨s2, hs2, -, -, hunc, -⟩ :=
      stage2_three_way (constModel 0 (699999 / 1000000)) []
        (by norm_num [constModel, stage1FailThreshold])
    rw [hs2]
    simp [hunc (by norm_num [constModel, uncertainThreshold])
        (by norm_num [constModel, exoplanetThreshold])]
  · obtain ⟨s2, hs2, -, -, -, hfp⟩ :=
      stage2_three_way (constModel 0 (399999 / 1000000)) []
        (by norm_num [constModel, stage1FailThreshold])
    rw [hs2]
    simp [hfp (by norm_num [constModel, uncertainThreshold])]

/-- The feature map setting all four false-positive flags to 1, in
front of arbitrary further entries. -/
def allFlagsOne (rest : List (String × ℚ)) : List (String × ℚ) :=
  [("koi_fpflag_ss", 1), ("koi_fpflag_nt", 1), ("koi_fpflag_co", 1),
   ("koi_fpflag_ec", 1)] ++ rest

/-- Modelled from the spec: the trained classifier `model_rf.pkl` is an
opaque binary artifact that is not part of the source tree; the spec
asserts that an observation with all four false-positive flags raised
fails stage-1 screening, i.e. the stage-1 negative-class probability of
its masked vector reaches the 0.60 rejection threshold. -/
def RejectsAllFlagged (m : Model) : Prop :=
  ∀ rest : List (String × ℚ),
    stage1FailThreshold ≤ (m.predictProba (stage1Vector m (allFlagsOne rest))).1

/-- C3: when stage 1 rejects, the final verdict is FALSE_POSITIVE at
stage-1 confidence with a null stage 2; otherwise the final verdict,
label and confidence mirror stage 2; and for a classifier rejecting a
fully flagged observation, the all-flags-one feature map yields stage-1
FAIL, final FALSE_POSITIVE, and null stage 2. -/
theorem final_verdict_mirrors (m : Model) (input : List (String × ℚ)) :
    ((classify m input).stage_1.result = Stage1Verdict.FAIL →
      (classify m input).prediction = "FALSE_POSITIVE" ∧
      (classify m input).confidence = (classify m input).stage_1.confidence ∧
      (classify m input).stage_2 = none) ∧
    ((classify m input).stage_1.result = Stage1Verdict.PASS →
      ∃ s2, (classify m input).stage_2 = some s2 ∧
        (classify m input).prediction = stage2VerdictName s2.result ∧
        (classify m input).label = s2.label ∧
        (classify m input).confidence = s2.confidence) ∧
    (RejectsAllFlagged m → ∀ rest : List (String × ℚ),
      (classify m (allFlagsOne rest)).stage_1.result = Stage1Verdict.FAIL ∧
      (classify m (allFlagsOne rest)).prediction = "FALSE_POSITIVE" ∧
      (classify m (allFlagsOne rest)).stage_2 = none) := by
  refine ⟨?_, ?_, ?_⟩
  · intro h
    by_cases hc : stage1FailThreshold ≤ (m.predictProba (stage1Vector m input)).1
    · simp [classify, hc]
    · exfalso
      simp [classify, hc] at h
  · intro h
    by_cases hc : stage1FailThreshold ≤ (m.predictProba (stage1Vector m input)).1
    · exfalso
      simp [classify, hc] at h
    · exact ⟨classifyStage2 ((m.predictProba (stage2Vector m input)).2),
        by simp [classify, hc]⟩
  · intro hrej rest
    simp [classify, hrej rest]

/-- Witness for C3: with a constant classifier putting pFP at 0.65 (as
in the documented stage-1 FAIL response), the all-flags-one observation
is rejected and the final fields collapse to FALSE_POSITIVE. -/
theorem final_verdict_mirrors_witness :
    (classify (constModel (65 / 100) 0) (allFlagsOne [])).stage_1.result =
      Stage1Verdict.FAIL ∧
    (classify (constModel (65 / 100) 0) (allFlagsOne [])).prediction =
      "FALSE_POSITIVE" ∧
    (classify (constModel (65 / 100) 0) (allFlagsOne [])).stage_2 = none := by
  exact (final_verdict_mirrors (constModel (65 / 100) 0) (allFlagsOne [])).2.2
    (fun _ => by norm_num [constModel, stage1FailThreshold]) []

/-- C4: in every `/predict` response, `stage_1` carries the
signal-quality screening stage, whose result is PASS or FAIL and whose
`signal_quality` field names the screened quality, while `stage_2`
carries the three-way physical-plausibility classification; `stage_2`
is null exactly when stage 1 failed, never the other way around. -/
theorem response_stage_shape (m : Model) (input : List (String × ℚ)) :
    ((classify m input).stage_2 = none ↔
      (classify m input).stage_1.result = Stage1Verdict.FAIL) ∧
    ((classify m input).stage_1.result = Stage1Verdict.PASS ∨
      (classify m input).stage_1.result = Stage1Verdict.FAIL) ∧
    ((classify m input).stage_1.result = Stage1Verdict.PASS ↔
      (classify m input).stage_1.signal_quality = "Clean Signal") ∧
    ((classify m input).stage_1.result = Stage1Verdict.FAIL ↔
      (classify m input).stage_1.signal_quality = "Poor Signal Quality") ∧
    (∀ s2, (classify m input).stage_2 = some s2 →
      s2.result = Stage2Verdict.EXOPLANET ∨
      s2.result = Stage2Verdict.UNCERTAIN ∨
      s2.result = Stage2Verdict.FALSE_POSITIVE) := by
  by_cases hc : stage1FailThreshold ≤ (m.predictProba (stage1Vector m input)).1
  · refine ⟨by simp [classify, hc], ?_, ?_, ?_, ?_⟩
    · simp [classify, hc]
    · simp [classify, hc]
    · simp [classify, hc]
    · intro s2 hs2
      simp [classify, hc] at hs2
  · refine ⟨by simp [classify, hc], ?_, ?_, ?_, ?_⟩
    · simp [classify, hc]
    · simp [classify, hc]
    · simp [classify, hc]
    · intro s2 hs2
      cases hr : s2.result
      · exact Or.inl rfl
      · exact Or.inr (Or.inl rfl)
      · exact Or.inr (Or.inr rfl)

/-- Witness for C4: the stage-shape theorem applied to the two constant
classifiers of the documented PASS and FAIL example responses. -/
theorem response_stage_shape_witness :
    ((classify (constModel (65 / 100) 0) []).stage_2 = none ↔
      (classify (constModel (65 / 100) 0) []).stage_1.result = Stage1Verdict.FAIL) ∧
    ((classify (constModel (15 / 100) (78 / 100)) []).stage_2 = none ↔
      (classify (constModel (15 / 100) (78 / 100)) []).stage_1.result =
        Stage1Verdict.FAIL) ∧
    ((classifyStage2 (78 / 100)).result = Stage2Verdict.EXOPLANET ∨
      (classifyStage2 (78 / 100)).result = Stage2Verdict.UNCERTAIN ∨
      (classifyStage2 (78 / 100)).result = Stage2Verdict.FALSE_POSITIVE) := by
  exact ⟨(response_stage_shape (constModel (65 / 100) 0) []).1,
    (response_stage_shape (constModel (15 / 100) (78 / 100)) []).1,
    (response_stage_shape (constModel (15 / 100) (78 / 100)) []).2.2.2.2
      (classifyStage2 (78 / 100))
      (by norm_num [classify, constModel, stage1FailThreshold])⟩

/-! ## TargetNormalizer: canonicalization and validation of target ids -/

/-- Whitespace, as matched by the regex class `\s`. -/
def isSpaceChar (c : Char) : Bool := c.isWhitespace

/-- A character of the regex class `[b-i]` with the `i` flag, i.e. the
planet-letter suffixes the code strips. -/
def isPlanetSuffixChar (c : Char) : Bool :=
  (('b' ≤ c) && (c ≤ 'i')) || (('B' ≤ c) && (c ≤ 'I'))

/-- One step of `replace(/\s+[b-i]$/i, "")` on the reversed character
list: when the string ends in at least one whitespace character followed
by a single letter b-i, the letter and the whole trailing whitespace run
are removed. -/
def dropPlanetSuffixRev : List Char → List Char
  | c :: d :: rest =>
      if isPlanetSuffixChar c && isSpaceChar d then
        List.dropWhile isSpaceChar (d :: rest)
      else c :: d :: rest
  | l => l

/-- Leading and trailing whitespace removal, embedding `.trim()`. -/
def trimChars (l : List Char) : List Char :=
  ((l.dropWhile isSpaceChar).reverse.dropWhile isSpaceChar).reverse

/-- Embeds `targetName.replace(/\s+[b-i]$/i, "").trim()` from
`openLightCurveModal`, the planet-letter stripping performed on a target
name before it is looked up. -/
def cleanTarget (s : String) : String :=
  String.mk (trimChars (dropPlanetSuffixRev s.data.reverse).reverse)

/-- Leading-zero stripping on a digit run, keeping a single zero when
the run is all zeros. -/
def stripLeadingZeros (ds : List Char) : List Char :=
  match ds.dropWhile (fun c => c = '0') with
  | [] => ['0']
  | t => t

/-- Modelled from the spec: the backend `main.py` implementing the
abbreviated-catalog translation is not in the source tree; per the spec
and the repository documentation, a `K#####.##` form maps to `KOI-<n>`
by stripping leading zeros and the decimal suffix. -/
def normalizeKForm (s : String) : String :=
  match s.data with
  | 'K' :: rest =>
      let ds := rest.takeWhile Char.isDigit
      match rest.dropWhile Char.isDigit with
      | '.' :: suf =>
          if !ds.isEmpty && !suf.isEmpty && suf.all Char.isDigit then
            String.mk ('K' :: 'O' :: 'I' :: '-' :: stripLeadingZeros ds)
          else s
      | _ => s
  | _ => s

/-- Modelled from the spec: canonicalization of a raw target string:
the planet-letter suffix stripping (whose letter class follows the
in-tree regex of `openLightCurveModal`) followed by the documented
abbreviated-catalog translation. -/
def normalize (s : String) : String := normalizeKForm (cleanTarget s)

/-- Counterexample to C5 as stated: the stripping regex class is
`[b-i]`, so the trailing letter `z` of `Kepler-8 z` is not a planet
letter and is left in place, contradicting the claim that every trailing
letter is stripped. -/
theorem normalize_letter_class_cex :
    normalize "Kepler-8 z" = "Kepler-8 z" ∧ normalize "Kepler-8 z" ≠ "Kepler-8" := by
  constructor
  · rfl
  · decide

/-- C5 (amended): normalization translates `K00752.01` to `KOI-752`
(leading zeros and decimal suffix stripped) and strips a trailing
planet-letter token of `Kepler-8` for exactly the letters b through i of
either case, leaving other trailing letters such as `z` or `a` in
place. -/
theorem normalize_translations :
    normalize "K00752.01" = "KOI-752" ∧
    normalize "Kepler-8 b" = "Kepler-8" ∧
    (List.all
      ['b', 'c', 'd', 'e', 'f', 'g', 'h', 'i',
       'B', 'C', 'D', 'E', 'F', 'G', 'H', 'I']
      (fun c => normalize (String.push "Kepler-8 " c) == "Kepler-8")) = true ∧
    normalize "Kepler-8 z" = "Kepler-8 z" ∧
    normalize "Kepler-8 a" = "Kepler-8 a" ∧
    normalize "K00744.01" = "KOI-744" := by
  refine ⟨rfl, rfl, ?_, rfl, rfl, rfl⟩
  decide

/-- One canonical shape of the allow-list: the literal prefix followed
by a nonempty digit run, as in the regex `^(Kepler-\d+|KOI-\d+|KIC \d+)$`. -/
def matchFormDigits (p : List Char) (l : List Char) : Bool :=
  p.isPrefixOf l && (!(l.drop p.length).isEmpty && (l.drop p.length).all Char.isDigit)

/-- Modelled from the spec: the backend allow-list regex
`^(Kepler-\d+|KOI-\d+|KIC \d+)$` applied to the canonical string. -/
def matchesTargetPattern (s : String) : Bool :=
  matchFormDigits "Kepler-".data s.data ||
  matchFormDigits "KOI-".data s.data ||
  matchFormDigits "KIC ".data s.data

/-- A path separator or NUL byte. -/
def isForbiddenChar (c : Char) : Bool :=
  (c == '/') || (c == '\\') || (c == Char.ofNat 0)

/-- Whether two consecutive dots occur anywhere in the list. -/
def hasDotDot : List Char → Bool
  | [] => false
  | [_] => false
  | c :: d :: rest => ((c == '.') && (d == '.')) || hasDotDot (d :: rest)

/-- The defense-in-depth scan: a path separator, a NUL byte, or a `..`
sequence occurs in the string. -/
def hasForbiddenSeq (s : String) : Bool :=
  s.data.any isForbiddenChar || hasDotDot s.data

/-- Modelled from the spec: the backend `/lightcurve` validator is not
in the source tree; per the spec it normalizes the raw target, rejects
with a validation error when the defense-in-depth scan finds a path
separator, a `..` sequence or a NUL byte, or when the canonical string
fails the allow-list pattern, and otherwise passes the canonical id on
to the fetch layer. -/
def validateTarget (raw : String) : Except String String :=
  if hasForbiddenSeq raw || !matchesTargetPattern (normalize raw) then
    Except.error "ValidationError"
  else
    Except.ok (normalize raw)

theorem digit_not_forbidden (c : Char) (h : c.isDigit = true) :
    isForbiddenChar c = false := by
  by_contra hne
  rw [Bool.not_eq_false] at hne
  simp only [isForbiddenChar, Bool.or_eq_true, beq_iff_eq] at hne
  rcases hne with (h1 | h1) | h1 <;> subst h1 <;> exact absurd h (by decide)

theorem digit_not_dot (c : Char) (h : c.isDigit = true) : (c == '.') = false := by
  by_contra hne
  rw [Bool.not_eq_false, beq_iff_eq] at hne
  subst hne
  exact absurd h (by decide)

theorem hasDotDot_eq_false (l : List Char) (h : ∀ c ∈ l, (c == '.') = false) :
    hasDotDot l = false := by
  induction l with
  | nil => rfl
  | cons c rest ih =>
      cases rest with
      | nil => rfl
      | cons d rest2 =>
          have hc := h c (by simp)
          simp only [hasDotDot, hc, Bool.false_and, Bool.false_or]
          exact ih (fun x hx => h x (List.mem_cons_of_mem c hx))

theorem matchFormDigits_clean (p : List Char) (s : String)
    (hp : p.any isForbiddenChar = false) (hd : ∀ c ∈ p, (c == '.') = false)
    (h : matchFormDigits p s.data = true) : hasForbiddenSeq s = false := by
  simp only [matchFormDigits, Bool.and_eq_true, Bool.not_eq_true',
    List.all_eq_true] at h
  obtain ⟨hpre, -, hdig⟩ := h
  have hsplit : p ++ s.data.drop p.length = s.data :=
    List.prefix_iff_eq_append.mp (List.isPrefixOf_iff_prefix.mp hpre)
  simp only [hasForbiddenSeq, Bool.or_eq_false_iff]
  constructor
  · rw [← hsplit, List.any_append, hp, Bool.false_or]
    rw [List.any_eq_false]
    intro c hc
    rw [digit_not_forbidden c (hdig c hc)]
    exact Bool.false_ne_true
  · apply hasDotDot_eq_false
    rw [← hsplit]
    intro c hc
    rcases List.mem_append.mp hc with hcp | hct
    · exact hd c hcp
    · exact digit_not_dot c (hdig c hct)

theorem pattern_clean (s : String) (h : matchesTargetPattern s = true) :
    hasForbiddenSeq s = false := by
  simp only [matchesTargetPattern, Bool.or_eq_true] at h
  rcases h with (h | h) | h
  · exact matchFormDigits_clean _ s (by decide) (by decide) h
  · exact matchFormDigits_clean _ s (by decide) (by decide) h
  · exact matchFormDigits_clean _ s (by decide) (by decide) h

/-- C6: the validator errors exactly on inputs whose canonical form
fails the three-pattern allow-list or that contain a path separator,
a `..` sequence or a NUL byte, and every id it accepts is the canonical
form, matches the allow-list, and is itself free of forbidden
sequences, so no unvalidated input reaches the fetch layer. -/
theorem validateTarget_allowlist (raw : String) :
    (validateTarget raw = Except.error "ValidationError" ↔
      (hasForbiddenSeq raw = true ∨ matchesTargetPattern (normalize raw) = false)) ∧
    (∀ canon, validateTarget raw = Except.ok canon →
      canon = normalize raw ∧ matchesTargetPattern canon = true ∧
      hasForbiddenSeq canon = false ∧ hasForbiddenSeq raw = false) := by
  constructor
  · cases hF : hasForbiddenSeq raw <;>
      cases hP : matchesTargetPattern (normalize raw) <;>
        simp [validateTarget, hF, hP]
  · intro canon h
    cases hF : hasForbiddenSeq raw <;>
      cases hP : matchesTargetPattern (normalize raw) <;>
        rw [validateTarget, hF, hP] at h <;> simp at h
    subst h
    exact ⟨rfl, hP, pattern_clean _ hP, rfl⟩

/-- Witness for C6: the documented injection attempts are rejected and
a well-formed target is accepted with a clean canonical id. -/
theorem validateTarget_allowlist_witness :
    validateTarget "../../etc/passwd" = Except.error "ValidationError" ∧
    validateTarget (String.push "Kepler-22" (Char.ofNat 0)) =
      Except.error "ValidationError" ∧
    validateTarget "KIC 12/34" = Except.error "ValidationError" ∧
    validateTarget "KIC 12\\34" = Except.error "ValidationError" ∧
    (matchesTargetPattern "Kepler-22" = true ∧
      hasForbiddenSeq "Kepler-22" = false) := by
  refine ⟨?_, ?_, ?_, ?_, ?_⟩
  · exact (validateTarget_allowlist "../../etc/passwd").1.mpr (Or.inl (by decide))
  · exact (validateTarget_allowlist (String.push "Kepler-22" (Char.ofNat 0))).1.mpr
      (Or.inl (by decide))
  · exact (validateTarget_allowlist "KIC 12/34").1.mpr (Or.inl (by decide))
  · exact (validateTarget_allowlist "KIC 12\\34").1.mpr (Or.inl (by decide))
  · have h := ((validateTarget_allowlist "Kepler-22").2 "Kepler-22" (by rfl))
    exact ⟨h.2.1, h.2.2.1⟩

/-! ## LightCurveCache: cache-aside retrieval over durable storage -/

/-- Filename derivation: strip every non-alphanumeric character from
the canonical id. -/
def sanitizeFilename (s : String) : String :=
  String.mk (s.data.filter Char.isAlphanum)

/-- Outcome of one bounded-time archive fetch plus render attempt. -/
inductive FetchOutcome where
  | success (bytes : List Nat)
  | notFound
  | deadlineExceeded
  | renderFailure
deriving DecidableEq

/-- Typed errors of `LightCurveCache.get`. -/
inductive CacheError where
  | notFound
  | deadlineExceeded
  | internalError
deriving DecidableEq

/-- Durable storage (filename-keyed byte entries) together with a log
of the archive fetches issued so far. -/
structure CacheState where
  store : List (String × List Nat)
  fetchLog : List String
deriving DecidableEq

/-- Modelled from the spec: the backend `/lightcurve` cache code is not
in the source tree; per the spec, `get` first checks durable storage by
the derived filename and returns stored bytes with no external
interaction on a hit; on a miss it invokes the archive fetch and either
publishes the rendered bytes all-or-nothing before returning them, or
returns the typed error and writes nothing. -/
def cacheGet (fetch : String → FetchOutcome) (st : CacheState)
    (canonicalId : String) : Except CacheError (List Nat) × CacheState :=
  let key := sanitizeFilename canonicalId
  match st.store.lookup key with
  | some bytes => (Except.ok bytes, st)
  | none =>
      match fetch canonicalId with
      | FetchOutcome.success bytes =>
          (Except.ok bytes,
            { store := (key, bytes) :: st.store,
              fetchLog := canonicalId :: st.fetchLog })
      | FetchOutcome.notFound =>
          (Except.error CacheError.notFound,
            { st with fetchLog := canonicalId :: st.fetchLog })
      | FetchOutcome.deadlineExceeded =>
          (Except.error CacheError.deadlineExceeded,
            { st with fetchLog := canonicalId :: st.fetchLog })
      | FetchOutcome.renderFailure =>
          (Except.error CacheError.internalError,
            { st with fetchLog := canonicalId :: st.fetchLog })

/-- C7: a stored filename is served from durable storage with no
archive fetch and no state change, while a first request for an
uncached target issues exactly one fetch, after which every request
whose canonical id derives the same filename is served with zero
additional fetches and no further state change. -/
theorem cache_hit_no_fetch (fetch : String → FetchOutcome)
    (st : CacheState) (c : String) :
    (∀ bytes, st.store.lookup (sanitizeFilename c) = some bytes →
      cacheGet fetch st c = (Except.ok bytes, st)) ∧
    (∀ bytes, st.store.lookup (sanitizeFilename c) = none →
      fetch c = FetchOutcome.success bytes →
      (cacheGet fetch st c).1 = Except.ok bytes ∧
      (cacheGet fetch st c).2.fetchLog = c :: st.fetchLog ∧
      (∀ c2, sanitizeFilename c2 = sanitizeFilename c →
        cacheGet fetch (cacheGet fetch st c).2 c2 =
          (Except.ok bytes, (cacheGet fetch st c).2))) := by
  constructor
  · intro bytes hhit
    simp [cacheGet, hhit]
  · intro bytes hmiss hfetch
    refine ⟨?_, ?_, ?_⟩
    · simp [cacheGet, hmiss, hfetch]
    · simp [cacheGet, hmiss, hfetch]
    · intro c2 hkey
      have hstate : (cacheGet fetch st c).2 =
          { store := (sanitizeFilename c, bytes) :: st.store,
            fetchLog := c :: st.fetchLog } := by
        simp [cacheGet, hmiss, hfetch]
      rw [hstate]
      simp [cacheGet, List.lookup, hkey]

/-- Witness for C7: a one-target archive serving `Kepler-22`; the first
request fetches once and the repeated request (through the abbreviated
`K00752.01`-style input of an id sharing the filename) is served from
the store with no further fetch. -/
theorem cache_hit_no_fetch_witness :
    (cacheGet (fun _ => FetchOutcome.success [7, 7]) ⟨[], []⟩ "Kepler-22").1 =
      Except.ok [7, 7] ∧
    (cacheGet (fun _ => FetchOutcome.success [7, 7]) ⟨[], []⟩ "Kepler-22").2.fetchLog =
      ["Kepler-22"] ∧
    cacheGet (fun _ => FetchOutcome.success [7, 7])
        (cacheGet (fun _ => FetchOutcome.success [7, 7]) ⟨[], []⟩ "Kepler-22").2
        "Kepler-22" =
      (Except.ok [7, 7],
        (cacheGet (fun _ => FetchOutcome.success [7, 7]) ⟨[], []⟩ "Kepler-22").2) := by
  have h := (cache_hit_no_fetch (fun _ => FetchOutcome.success [7, 7])
    ⟨[], []⟩ "Kepler-22").2 [7, 7] (by rfl) (by rfl)
  exact ⟨h.1, h.2.1, h.2.2 "Kepler-22" rfl⟩

/-- C8: whenever `get` fails, nothing is written: the durable store
after a NotFound, DeadlineExceeded or internal failure is exactly the
store before the call, and any entry present afterwards was either
already stored or is the complete byte payload of this call's
successful fetch. -/
theorem cache_failure_writes_nothing (fetch : String → FetchOutcome)
    (st : CacheState) (c : String) :
    (∀ e, (cacheGet fetch st c).1 = Except.error e →
      (cacheGet fetch st c).2.store = st.store) ∧
    (∀ key bytes, (key, bytes) ∈ (cacheGet fetch st c).2.store →
      (key, bytes) ∈ st.store ∨
        ((cacheGet fetch st c).1 = Except.ok bytes ∧
          key = sanitizeFilename c ∧ fetch c = FetchOutcome.success bytes)) := by
  constructor
  · intro e herr
    cases hhit : st.store.lookup (sanitizeFilename c) with
    | some bytes => simp [cacheGet, hhit]
    | none =>
        cases hf : fetch c <;> simp [cacheGet, hhit, hf] at herr ⊢
  · intro key bytes hmem
    cases hhit : st.store.lookup (sanitizeFilename c) with
    | some b => simp [cacheGet, hhit] at hmem; exact Or.inl hmem
    | none =>
        cases hf : fetch c with
        | success b =>
            simp [cacheGet, hhit, hf] at hmem
            rcases hmem with ⟨hk, hb⟩ | hold
            · subst hk
              subst hb
              exact Or.inr ⟨by simp [cacheGet, hhit, hf], rfl, rfl⟩
            · exact Or.inl hold
        | notFound => simp [cacheGet, hhit, hf] at hmem; exact Or.inl hmem
        | deadlineExceeded => simp [cacheGet, hhit, hf] at hmem; exact Or.inl hmem
        | renderFailure => simp [cacheGet, hhit, hf] at hmem; exact Or.inl hmem

/-- Witness for C8: a deadline-exceeded fetch and a not-found fetch
against a one-entry store leave the store exactly as it was. -/
theorem cache_failure_writes_nothing_witness :
    (cacheGet (fun _ => FetchOutcome.deadlineExceeded)
        ⟨[("KOI752", [1])], []⟩ "Kepler-22").2.store = [("KOI752", [1])] ∧
    (cacheGet (fun _ => FetchOutcome.notFound)
        ⟨[("KOI752", [1])], []⟩ "Kepler-22").2.store = [("KOI752", [1])] := by
  exact ⟨(cache_failure_writes_nothing (fun _ => FetchOutcome.deadlineExceeded)
      ⟨[("KOI752", [1])], []⟩ "Kepler-22").1 CacheError.deadlineExceeded (by rfl),
    (cache_failure_writes_nothing (fun _ => FetchOutcome.notFound)
      ⟨[("KOI752", [1])], []⟩ "Kepler-22").1 CacheError.notFound (by rfl)⟩

/-! ## LivePrediction component: feature form state machine -/

/-- One entry of the feature form configuration: key, slider bounds and
default value, embedding the `FeatureConfig` records of
`live-prediction.tsx`. -/
structure FeatureConfig where
  key : String
  minVal : ℚ
  maxVal : ℚ
  defaultValue : ℚ
deriving DecidableEq

/-- The eight physical feature configurations of the input form. -/
def PHYSICAL_FEATURES : List FeatureConfig :=
  [⟨"koi_period", 1/2, 500, 10⟩,
   ⟨"koi_prad", 1/10, 25, 2⟩,
   ⟨"koi_depth", 1, 10000, 100⟩,
   ⟨"koi_duration", 1/2, 20, 3⟩,
   ⟨"koi_model_snr", 5, 500, 15⟩,
   ⟨"koi_impact", 0, 3/2, 1/2⟩,
   ⟨"koi_steff", 3000, 10000, 5500⟩,
   ⟨"koi_srad", 1/10, 10, 1⟩]

/-- The four false-positive flag configurations, each with bounds 0 to
1 and default 0. -/
def FPFLAG_FEATURES : List FeatureConfig :=
  [⟨"koi_fpflag_ss", 0, 1, 0⟩,
   ⟨"koi_fpflag_nt", 0, 1, 0⟩,
   ⟨"koi_fpflag_co", 0, 1, 0⟩,
   ⟨"koi_fpflag_ec", 0, 1, 0⟩]

/-- Initial features state: every configured feature takes its default
value. -/
def initialFeatures : String → ℚ := fun k =>
  match (PHYSICAL_FEATURES ++ FPFLAG_FEATURES).find? (fun f => f.key == k) with
  | some f => f.defaultValue
  | none => 0

/-- Embeds `setFeatures(prev => ({...prev, [key]: value}))`. -/
def updateFeature (key : String) (v : ℚ) (s : String → ℚ) : String → ℚ :=
  fun k => if k = key then v else s k

/-- Clamping of a parsed numeric input to the configured range,
embedding `Math.min(Math.max(numValue, min), max)`. -/
def clampVal (lo hi v : ℚ) : ℚ := min (max v lo) hi

/-- The user interactions that can change the features state: the
per-flag toggle button, the per-physical-feature slider, text input
and blur handlers (a `none` value models empty or non-numeric text,
which is ignored), and the Reset button. -/
inductive UiEvent where
  | toggleFlag (i : Nat)
  | physSlider (i : Nat) (v : ℚ)
  | physText (i : Nat) (v : Option ℚ)
  | physBlur (i : Nat) (v : Option ℚ)
  | resetForm
deriving DecidableEq

/-- One state transition of the features record for one user
interaction, following the handlers of `live-prediction.tsx`: the flag
toggle writes 1 when the flag is 0 and 0 otherwise, the physical
handlers write the (clamped) numeric value, and Reset restores every
default. -/
def step (e : UiEvent) (s : String → ℚ) : String → ℚ :=
  match e with
  | UiEvent.toggleFlag i =>
      match FPFLAG_FEATURES.get? i with
      | some f => updateFeature f.key (if s f.key = 0 then 1 else 0) s
      | none => s
  | UiEvent.physSlider i v =>
      match PHYSICAL_FEATURES.get? i with
      | some f => updateFeature f.key v s
      | none => s
  | UiEvent.physText i v =>
      match PHYSICAL_FEATURES.get? i, v with
      | some f, some x => updateFeature f.key (clampVal f.minVal f.maxVal x) s
      | _, _ => s
  | UiEvent.physBlur i v =>
      match PHYSICAL_FEATURES.get? i, v with
      | some f, some x => updateFeature f.key (clampVal f.minVal f.maxVal x) s
      | _, _ => s
  | UiEvent.resetForm => initialFeatures

/-- The features state reached from the initial state by a sequence of
user interactions. -/
def runEvents (evs : List UiEvent) : String → ℚ :=
  evs.foldl (fun s e => step e s) initialFeatures

theorem flag_key_ne_physical_key (f : FeatureConfig) (hf : f ∈ FPFLAG_FEATURES)
    (g : FeatureConfig) (hg : g ∈ PHYSICAL_FEATURES) : f.key ≠ g.key := by
  fin_cases hf <;> fin_cases hg <;> decide

theorem initial_flag_zero (f : FeatureConfig) (hf : f ∈ FPFLAG_FEATURES) :
    initialFeatures f.key = 0 := by
  fin_cases hf <;> rfl

theorem step_preserves_flag (f : FeatureConfig) (hf : f ∈ FPFLAG_FEATURES)
    (e : UiEvent) (s : String → ℚ) (hs : s f.key = 0 ∨ s f.key = 1) :
    step e s f.key = 0 ∨ step e s f.key = 1 := by
  cases e with
  | toggleFlag i =>
      cases hg : FPFLAG_FEATURES.get? i with
      | none => simp only [step, hg]; exact hs
      | some g =>
          simp only [step, hg, updateFeature]
          by_cases hk : f.key = g.key
          · rw [if_pos hk]
            by_cases h0 : s g.key = 0
            · rw [if_pos h0]; exact Or.inr rfl
            · rw [if_neg h0]; exact Or.inl rfl
          · rw [if_neg hk]; exact hs
  | physSlider i v =>
      cases hg : PHYSICAL_FEATURES.get? i with
      | none => simp only [step, hg]; exact hs
      | some g =>
          have hne := flag_key_ne_physical_key f hf g (List.get?_mem hg)
          simp only [step, hg, updateFeature, if_neg hne]
          exact hs
  | physText i v =>
      cases hg : PHYSICAL_FEATURES.get? i with
      | none => cases v <;> simp only [step, hg] <;> exact hs
      | some g =>
          cases v with
          | none => simp only [step, hg]; exact hs
          | some x =>
              have hne := flag_key_ne_physical_key f hf g (List.get?_mem hg)
              simp only [step, hg, updateFeature, if_neg hne]
              exact hs
  | physBlur i v =>
      cases hg : PHYSICAL_FEATURES.get? i with
      | none => cases v <;> simp only [step, hg] <;> exact hs
      | some g =>
          cases v with
          | none => simp only [step, hg]; exact hs
          | some x =>
              have hne := flag_key_ne_physical_key f hf g (List.get?_mem hg)
              simp only [step, hg, updateFeature, if_neg hne]
              exact hs
  | resetForm =>
      simp only [step]
      exact Or.inl (initial_flag_zero f hf)

/-- Counterexample to C9 as stated: the Reset button is an operation
other than the flag toggle that changes a flag value, taking the
stellar-eclipse flag from 1 back to 0. -/
theorem flag_only_toggle_cex :
    runEvents [UiEvent.toggleFlag 0] "koi_fpflag_ss" = 1 ∧
    runEvents [UiEvent.toggleFlag 0, UiEvent.resetForm] "koi_fpflag_ss" = 0 ∧
    (∀ i, (UiEvent.resetForm : UiEvent) ≠ UiEvent.toggleFlag i) := by
  refine ⟨by rfl, by rfl, ?_⟩
  intro i h
  exact UiEvent.noConfusion h

/-- C9 (amended): under every sequence of user interactions each
false-positive flag in the features state is exactly 0 or 1; every flag
is initialized to 0, only the flag toggle button (0 to 1, anything else
to 0) and the Reset button (back to 0) ever change a flag, and the
free-text and slider handlers, which exist only for physical features,
leave every flag unchanged. -/
theorem flag_invariant (evs : List UiEvent) (f : FeatureConfig)
    (hf : f ∈ FPFLAG_FEATURES) :
    (runEvents evs f.key = 0 ∨ runEvents evs f.key = 1) ∧
    initialFeatures f.key = 0 ∧
    (∀ i v s, step (UiEvent.physSlider i v) s f.key = s f.key) ∧
    (∀ i v s, step (UiEvent.physText i v) s f.key = s f.key) ∧
    (∀ i v s, step (UiEvent.physBlur i v) s f.key = s f.key) ∧
    (∀ i s, step (UiEvent.toggleFlag i) s f.key = s f.key ∨
      step (UiEvent.toggleFlag i) s f.key = (if s f.key = 0 then 1 else 0)) ∧
    (∀ s, step UiEvent.resetForm s f.key = 0) := by
  refine ⟨?_, initial_flag_zero f hf, ?_, ?_, ?_, ?_, ?_⟩
  · suffices h : ∀ s : String → ℚ, (s f.key = 0 ∨ s f.key = 1) →
        ((evs.foldl (fun s e => step e s) s) f.key = 0 ∨
          (evs.foldl (fun s e => step e s) s) f.key = 1) from
      h initialFeatures (Or.inl (initial_flag_zero f hf))
    induction evs with
    | nil => intro s hs; exact hs
    | cons e rest ih =>
        intro s hs
        exact ih (step e s) (step_preserves_flag f hf e s hs)
  · intro i v s
    cases hg : PHYSICAL_FEATURES.get? i with
    | none => simp only [step, hg]
    | some g =>
        have hne := flag_key_ne_physical_key f hf g (List.get?_mem hg)
        simp only [step, hg, updateFeature, if_neg hne]
  · intro i v s
    cases hg : PHYSICAL_FEATURES.get? i with
    | none => cases v <;> simp only [step, hg]
    | some g =>
        cases v with
        | none => simp only [step, hg]
        | some x =>
            have hne := flag_key_ne_physical_key f hf g (List.get?_mem hg)
            simp only [step, hg, updateFeature, if_neg hne]
  · intro i v s
    cases hg : PHYSICAL_FEATURES.get? i with
    | none => cases v <;> simp only [step, hg]
    | some g =>
        cases v with
        | none => simp only [step, hg]
        | some x =>
            have hne := flag_key_ne_physical_key f hf g (List.get?_mem hg)
            simp only [step, hg, updateFeature, if_neg hne]
  · intro i s
    cases hg : FPFLAG_FEATURES.get? i with
    | none =>
        simp only [step, hg]
        exact Or.inl trivial
    | some g =>
        simp only [step, hg, updateFeature]
        by_cases hk : f.key = g.key
        · rw [if_pos hk, hk]
          exact Or.inr rfl
        · rw [if_neg hk]
          exact Or.inl rfl
  · intro s
    simp only [step]
    exact initial_flag_zero f hf

/-- Witness for C9: the invariant applied to a concrete interaction
sequence toggling and then editing around the stellar-eclipse flag. -/
theorem flag_invariant_witness :
    (runEvents [UiEvent.toggleFlag 0, UiEvent.physText 0 (some 7),
        UiEvent.physSlider 1 (25 : ℚ)] "koi_fpflag_ss" = 0 ∨
      runEvents [UiEvent.toggleFlag 0, UiEvent.physText 0 (some 7),
        UiEvent.physSlider 1 (25 : ℚ)] "koi_fpflag_ss" = 1) ∧
    initialFeatures "koi_fpflag_ss" = 0 := by
  have h := flag_invariant
    [UiEvent.toggleFlag 0, UiEvent.physText 0 (some 7),
      UiEvent.physSlider 1 (25 : ℚ)]
    ⟨"koi_fpflag_ss", 0, 1, 0⟩ (by decide)
  exact ⟨h.1, h.2.1⟩

/-! ## DataExplorer component: light-curve modal state -/

/-- The `DataExplorer` component state: filter controls, the fetched
candidate page, the light-curve modal fields, and a log of the blob
object URLs revoked so far (the observable effect of
`URL.revokeObjectURL`). -/
structure ExplorerState where
  searchTerm : String
  filterHabitable : Bool
  sortBy : String
  radiusRange : ℚ × ℚ
  temperatureRange : ℚ × ℚ
  exoplanets : List String
  offset : Nat
  totalCount : Nat
  isModalOpen : Bool
  selectedTarget : Option String
  isImageLoading : Bool
  imageUrl : Option String
  modalError : Option String
  revokedUrls : List String
deriving DecidableEq

/-- Embeds `closeModal`: revoke the blob URL when one exists, then
close the modal and clear the target, image URL and modal error. -/
def closeModal (s : ExplorerState) : ExplorerState :=
  { s with
    revokedUrls :=
      match s.imageUrl with
      | some u => u :: s.revokedUrls
      | none => s.revokedUrls
    isModalOpen := false
    selectedTarget := none
    imageUrl := none
    modalError := none }

/-- Embeds the synchronous prefix of `openLightCurveModal`: select the
target, open the modal, start loading, and clear the error and image
URL. -/
def openModalStart (t : String) (s : ExplorerState) : ExplorerState :=
  { s with
    selectedTarget := some t
    isModalOpen := true
    isImageLoading := true
    modalError := none
    imageUrl := none }

/-- Embeds the fetch success continuation of `openLightCurveModal`. -/
def openModalSuccess (u : String) (s : ExplorerState) : ExplorerState :=
  { s with imageUrl := some u, isImageLoading := false }

/-- Embeds the fetch failure continuation of `openLightCurveModal`. -/
def openModalFailure (msg : String) (s : ExplorerState) : ExplorerState :=
  { s with modalError := some msg, isImageLoading := false }

/-- Embeds `handleEsc`: the Escape key closes the modal when it is
open and does nothing otherwise. -/
def handleEsc (key : String) (s : ExplorerState) : ExplorerState :=
  if key == "Escape" && s.isModalOpen then closeModal s else s

/-- C10: closing the modal revokes the blob URL exactly when one
exists and resets only the modal fields (open flag, target, image URL,
error), leaving the loading flag, the fetched candidate list, offset,
total count and every filter unchanged; opening the modal (its start,
success and failure transitions) also leaves the candidate list,
offset, total count and filters unchanged; and the Escape key on an
open modal performs exactly `closeModal`. -/
theorem closeModal_frame (s : ExplorerState) (t u msg : String) :
    (closeModal s).isModalOpen = false ∧
    (closeModal s).selectedTarget = none ∧
    (closeModal s).imageUrl = none ∧
    (closeModal s).modalError = none ∧
    (closeModal s).revokedUrls = s.imageUrl.toList ++ s.revokedUrls ∧
    (closeModal s).isImageLoading = s.isImageLoading ∧
    (closeModal s).exoplanets = s.exoplanets ∧
    (closeModal s).offset = s.offset ∧
    (closeModal s).totalCount = s.totalCount ∧
    (closeModal s).searchTerm = s.searchTerm ∧
    (closeModal s).filterHabitable = s.filterHabitable ∧
    (closeModal s).sortBy = s.sortBy ∧
    (closeModal s).radiusRange = s.radiusRange ∧
    (closeModal s).temperatureRange = s.temperatureRange ∧
    (openModalStart t s).exoplanets = s.exoplanets ∧
    (openModalStart t s).offset = s.offset ∧
    (openModalStart t s).totalCount = s.totalCount ∧
    (openModalStart t s).searchTerm = s.searchTerm ∧
    (openModalStart t s).filterHabitable = s.filterHabitable ∧
    (openModalStart t s).sortBy = s.sortBy ∧
    (openModalStart t s).radiusRange = s.radiusRange ∧
    (openModalStart t s).temperatureRange = s.temperatureRange ∧
    (openModalSuccess u s).exoplanets = s.exoplanets ∧
    (openModalSuccess u s).offset = s.offset ∧
    (openModalSuccess u s).totalCount = s.totalCount ∧
    (openModalSuccess u s).searchTerm = s.searchTerm ∧
    (openModalSuccess u s).filterHabitable = s.filterHabitable ∧
    (openModalSuccess u s).sortBy = s.sortBy ∧
    (openModalSuccess u s).radiusRange = s.radiusRange ∧
    (openModalSuccess u s).temperatureRange = s.temperatureRange ∧
    (openModalFailure msg s).exoplanets = s.exoplanets ∧
    (openModalFailure msg s).offset = s.offset ∧
    (openModalFailure msg s).totalCount = s.totalCount ∧
    (openModalFailure msg s).searchTerm = s.searchTerm ∧
    (openModalFailure msg s).filterHabitable = s.filterHabitable ∧
    (openModalFailure msg s).sortBy = s.sortBy ∧
    (openModalFailure msg s).radiusRange = s.radiusRange ∧
    (openModalFailure msg s).temperatureRange = s.temperatureRange ∧
    handleEsc "Escape" { s with isModalOpen := true } =
      closeModal { s with isModalOpen := true } := by
  cases himg : s.imageUrl <;>
    simp [closeModal, openModalStart, openModalSuccess, openModalFailure,
      handleEsc, himg]

end MLAST
